import Mathlib

/-!
A shallow embedding of src/utilities/quickumls_wrapper.py (the THERA-IE
QuickUMLS command-line wrapper), together with theorems about its
observable behaviour.

The wrapped QuickUMLS matcher is external: it is modelled as a function
parameter of type MatchFn.  Python dictionaries returned by the matcher
are modelled by the Concept structure, whose fields are the five keys the
wrapper reads; an absent key is Option.none.  Similarity scores are
modelled as rationals, standing for the non-NaN floating-point scores the
library produces.
-/

namespace Thera

/-- A Python runtime value, restricted to the shapes the wrapper can
actually receive in the fields it inspects.  Python bool is a subclass of
int, which matters for the isinstance test below. -/
inductive PyVal where
  | str (s : String)
  | int (n : Int)
  | float (q : ℚ)
  | bool (b : Bool)
  | pynone
deriving DecidableEq, Repr

/-- Models Python str() on these values.  A float is rendered through the
Rat ToString instance, an abstract stand-in for the decimal repr of a
float; no theorem below depends on the exact digits. -/
def pyStr : PyVal → String
  | .str s => s
  | .int n => toString n
  | .float q => toString q
  | .bool true => "True"
  | .bool false => "False"
  | .pynone => "None"

/-- Models isinstance(x, (int, float)) from line 51 of the wrapper.
Booleans pass the test because Python bool is a subclass of int. -/
def PyVal.isNumeric : PyVal → Bool
  | .int _ => true
  | .float _ => true
  | .bool _ => true
  | _ => false

/-- A candidate concept dictionary produced by the matcher, restricted to
the keys the wrapper reads with .get: cui, preferred, term, similarity,
semtypes.  A key that is absent is Option.none.  The similarity value is
modelled as a rational and semtypes as a list of tags, matching the
library output the wrapper is written against. -/
structure Concept where
  cui : Option PyVal
  preferred : Option PyVal
  term : Option PyVal
  similarity : Option ℚ
  semtypes : Option (List String)
deriving DecidableEq, Repr

/-- The flat record built for each candidate (the dict literal at lines
60 to 66 of the wrapper).  The method field is the constant "quickumls"
and is left implicit. -/
structure MatchRecord where
  cui : PyVal
  preferred_name : PyVal
  similarity : ℚ
  semtypes : List String
deriving DecidableEq, Repr

/-- One element of a result list: either a normalized match record or the
error dict produced by the per-term exception handler. -/
inductive QRecord where
  | ok (r : MatchRecord)
  | err (msg : String)
deriving DecidableEq, Repr

/-- The similarity field of a result element, when it has one. -/
def QRecord.simOf : QRecord → Option ℚ
  | .ok m => some m.similarity
  | .err _ => Option.none

/-- The best_match keyword argument passed at the match call site
(line 43 of the wrapper): best_match=True. -/
def arg_best_match : Bool := true

/-- The ignore_syntax keyword argument passed at the match call site
(line 43 of the wrapper): ignore_syntax=False. -/
def arg_ignore_syn : Bool := false

/-- The external matcher capability: given the term and the two keyword
arguments of the call site, it either returns a list of match groups
(each a list of candidate concept dictionaries) or raises. -/
abbrev MatchFn := String → Bool → Bool → Except String (List (List Concept))

/-- The per-candidate normalization block (lines 47 to 66 of the
wrapper): each field is read with .get and its documented default, and a
numeric preferred value is replaced by the term field, falling back to
the stringified number. -/
def normalize_concept (c : Concept) : MatchRecord :=
  let preferred := c.preferred.getD (.str "")
  ⟨c.cui.getD (.str ""),
   if preferred.isNumeric then c.term.getD (.str (pyStr preferred))
   else .str (pyStr preferred),
   c.similarity.getD 0,
   c.semtypes.getD []⟩

/-- Insert one record into a list that is already sorted by similarity in
non-increasing order, keeping it sorted. -/
def insertDesc (r : MatchRecord) : List MatchRecord → List MatchRecord
  | [] => [r]
  | x :: xs =>
      if r.similarity ≤ x.similarity then x :: insertDesc r xs
      else r :: x :: xs

/-- Models results.sort(key=lambda x: x['similarity'], reverse=True) at
line 69 of the wrapper: a stable sort by the similarity key, descending,
realised here as an insertion sort. -/
def sortBySim : List MatchRecord → List MatchRecord
  | [] => []
  | x :: xs => insertDesc x (sortBySim xs)

/-- query_quickumls (lines 40 to 73 of the wrapper): call the matcher
with the fixed keyword arguments, flatten the match groups, normalize
each candidate, sort by similarity descending and keep the first three;
any exception becomes a single-element error list. -/
def query_quickumls (f : MatchFn) (term : String) : List QRecord :=
  match f term arg_best_match arg_ignore_syn with
  | .error e => [.err ("QuickUMLS query failed: " ++ e)]
  | .ok groups =>
      ((sortBySim (groups.flatten.map normalize_concept)).take 3).map QRecord.ok

/-- Insert or overwrite one key of an insertion-ordered string map,
modelling assignment to a Python dict key: an existing key keeps its
position, a new key is appended. -/
def upsert (m : List (String × List QRecord)) (k : String) (v : List QRecord) :
    List (String × List QRecord) :=
  if ∃ p ∈ m, p.1 = k then m.map (fun p => if p.1 = k then (k, v) else p)
  else m ++ [(k, v)]

/-- batch_query_quickumls (lines 75 to 87 of the wrapper): query each
term in order and record the result under the term in the mapping.  The
mapping is modelled as an insertion-ordered association list, matching
Python dict semantics. -/
def batch_query_quickumls (f : MatchFn) (terms : List String) :
    List (String × List QRecord) :=
  terms.foldl (fun acc t => upsert acc t (query_quickumls f t)) []

/-- The characters stripped by Python str.strip() with no argument
(ASCII whitespace; the wrapper never meets other Unicode whitespace). -/
def isPyWs (c : Char) : Bool :=
  c == ' ' || c == '\t' || c == '\n' || c == '\r' || c == '\x0b' || c == '\x0c'

/-- Remove leading and trailing whitespace from a character list. -/
def stripList (l : List Char) : List Char :=
  ((l.dropWhile isPyWs).reverse.dropWhile isPyWs).reverse

/-- Models Python str.strip(): remove leading and trailing whitespace. -/
def pyStrip (s : String) : String := ⟨stripList s.data⟩

/-- Split a character stream into lines at newline characters, the way
iterating a text file yields lines (the newline itself is consumed; a
trailing newline yields a final empty piece that the caller filters). -/
def splitLines : List Char → List (List Char)
  | [] => [[]]
  | c :: cs =>
      if c = '\n' then [] :: splitLines cs
      else
        match splitLines cs with
        | [] => [[c]]
        | l :: ls => (c :: l) :: ls

/-- The batch-file term list (line 104 of the wrapper):
terms = [line.strip() for line in f if line.strip()]. -/
def readTerms (content : String) : List String :=
  (splitLines content.data).filterMap fun line =>
    if pyStrip ⟨line⟩ = "" then none else some (pyStrip ⟨line⟩)

/-- One digit character for a value below ten, reusing Nat.digitChar. -/
def natCharsAux : Nat → Nat → List Char
  | 0, _ => []
  | fuel + 1, n =>
      if n = 0 then []
      else natCharsAux fuel (n / 10) ++ [Nat.digitChar (n % 10)]

/-- The decimal digit characters of a natural number (empty for zero);
fuel-based so that it is structurally recursive. -/
def natChars (n : Nat) : List Char := natCharsAux n n

/-- The decimal rendering of a natural number. -/
def natStr (n : Nat) : String := if n = 0 then "0" else ⟨natChars n⟩

/-- Models the Python format spec .3f used at line 125 of the wrapper:
fixed-point rendering with exactly three digits after the decimal point.
Ties are rounded up here where the float formatter rounds ties to even;
no theorem below depends on the rounding direction. -/
def format3 (q : ℚ) : String :=
  (if (⌊q * 1000 + 1 / 2⌋ : Int) < 0 then "-" else "") ++
    natStr ((⌊q * 1000 + 1 / 2⌋ : Int).natAbs / 1000) ++ "." ++
    ⟨[Nat.digitChar ((⌊q * 1000 + 1 / 2⌋ : Int).natAbs / 100 % 10),
      Nat.digitChar ((⌊q * 1000 + 1 / 2⌋ : Int).natAbs / 10 % 10),
      Nat.digitChar ((⌊q * 1000 + 1 / 2⌋ : Int).natAbs % 10)]⟩

/-- The lines printed by the simple output mode (lines 121 to 127 of the
wrapper): three labelled lines and a separator per record, and nothing
for a record carrying the error key. -/
def simpleLines (results : List QRecord) : List String :=
  (results.map fun r =>
    match r with
    | .ok m =>
        ["CUI: " ++ pyStr m.cui,
         "Preferred: " ++ pyStr m.preferred_name,
         "Similarity: " ++ format3 m.similarity,
         "---"]
    | .err _ => []).flatten

/-- The output format selected by --output; the default is json. -/
inductive OutputFmt where
  | json
  | simple
deriving DecidableEq, Repr

/-- The parsed command-line arguments of the wrapper. -/
structure Args where
  term : Option String
  batch_file : Option String
  batch_terms : Option (List String)
  output : OutputFmt

/-- The parts of the process environment the wrapper observes: whether
the fixed index path exists, whether constructing the matcher raises,
the matcher itself, and the filesystem read used by --batch-file. -/
structure Env where
  index_exists : Bool
  construct : Except String Unit
  matchFn : MatchFn
  readFile : String → Except String String

/-- One item printed to standard output: a single-line JSON error
object, a pretty-printed JSON result list or batch mapping, or a plain
text line. -/
inductive OutItem where
  | jsonErrLine (msg : String)
  | jsonList (rs : List QRecord)
  | jsonMap (b : List (String × List QRecord))
  | text (s : String)
deriving DecidableEq, Repr

/-- How the process ends: a normal exit with a code, or termination by
an exception no handler catches. -/
inductive Outcome where
  | exited (code : Nat)
  | uncaught (msg : String)
deriving DecidableEq, Repr

/-- The fixed QuickUMLS index path (line 27 of the wrapper). -/
def index_path : String := "/users/isarkar/sarkarcode/_data/quickumls/quickumls_index"

/-- The matcher construction threshold (line 34 of the wrapper). -/
def quickumls_threshold : ℚ := 7 / 10

/-- The matcher construction window (line 34 of the wrapper). -/
def quickumls_window : Nat := 5

/-- initialize_quickumls (lines 21 to 38): report the printed error and
exit code when the index path is missing or construction raises, and
nothing when the matcher is obtained.  sys.exit raises SystemExit, which
the except Exception clause does not catch, so the path-missing branch
really exits. -/
def init_check (env : Env) : Option (List OutItem × Outcome) :=
  if env.index_exists = false then
    some ([.jsonErrLine ("QuickUMLS index not found at " ++ index_path)], .exited 1)
  else
    match env.construct with
    | .error e =>
        some ([.jsonErrLine ("QuickUMLS initialization failed: " ++ e)], .exited 1)
    | .ok _ => none

/-- The usage-error branch of main (lines 128 to 130). -/
def usage_exit : List OutItem × Outcome :=
  ([.text "Error: Must provide either --term, --batch-file, or --batch-terms"],
   .exited 1)

/-- The single-term branch of main (lines 111 to 127); an empty string
is falsy in Python, so it falls through to the usage error. -/
def run_modes3 (env : Env) (args : Args) : List OutItem × Outcome :=
  match args.term with
  | some t =>
      if t = "" then usage_exit
      else
        let results := query_quickumls env.matchFn t
        match args.output with
        | .json => ([.jsonList results], .exited 0)
        | .simple => ((simpleLines results).map .text, .exited 0)
  | Option.none => usage_exit

/-- The --batch-terms branch of main (lines 107 to 110); argparse gives
the flag at least one value, and any non-empty list is truthy. -/
def run_modes2 (env : Env) (args : Args) : List OutItem × Outcome :=
  match args.batch_terms with
  | some terms =>
      if terms.isEmpty then run_modes3 env args
      else ([.jsonMap (batch_query_quickumls env.matchFn terms)], .exited 0)
  | Option.none => run_modes3 env args

/-- The --batch-file branch of main (lines 101 to 106): the open call is
outside every try block, so a failing open ends the process with an
uncaught exception and nothing printed. -/
def run_modes (env : Env) (args : Args) : List OutItem × Outcome :=
  match args.batch_file with
  | some p =>
      if p = "" then run_modes2 env args
      else
        match env.readFile p with
        | .error e => ([], .uncaught e)
        | .ok content =>
            ([.jsonMap (batch_query_quickumls env.matchFn (readTerms content))],
             .exited 0)
  | Option.none => run_modes2 env args

/-- main (lines 89 to 130): initialize the matcher, then dispatch on the
input-mode flags in precedence order batch-file, batch-terms, term. -/
def runMain (env : Env) (args : Args) : List OutItem × Outcome :=
  match init_check env with
  | some r => r
  | Option.none => run_modes env args

/-- The invariant claimed of every result list: at most three elements,
and the similarity fields that exist are in non-increasing order. -/
def resultInvariant (rs : List QRecord) : Prop :=
  rs.length ≤ 3 ∧ List.Pairwise (fun a b => b ≤ a) (rs.filterMap QRecord.simOf)

/-- A matcher that always raises. -/
def fErr : MatchFn := fun _ _ _ => .error "boom"

/-- A matcher that always returns no match groups. -/
def fEmpty : MatchFn := fun _ _ _ => .ok []

/-- A matcher that raises exactly when ignore_syntax is passed as False,
so that the value at the call site is observable in the result. -/
def fSyn : MatchFn := fun _ _ ign => if ign then .ok [] else .error "syn"

/-- An environment whose index path is missing. -/
def envMissing : Env := ⟨false, .ok (), fEmpty, fun _ => .ok ""⟩

/-- A healthy environment whose matcher always raises and whose
filesystem rejects every read. -/
def envOkErr : Env := ⟨true, .ok (), fErr, fun _ => .error "nofile"⟩

/-! Lemmas about the descending insertion sort. -/

theorem mem_insertDesc {r a : MatchRecord} {l : List MatchRecord}
    (h : a ∈ insertDesc r l) : a = r ∨ a ∈ l := by
  induction l with
  | nil => simpa [insertDesc] using h
  | cons x xs ih =>
      by_cases hc : r.similarity ≤ x.similarity
      · rw [insertDesc, if_pos hc] at h
        rcases List.mem_cons.1 h with h1 | h1
        · exact Or.inr (List.mem_cons.2 (Or.inl h1))
        · rcases ih h1 with h2 | h2
          · exact Or.inl h2
          · exact Or.inr (List.mem_cons.2 (Or.inr h2))
      · rw [insertDesc, if_neg hc] at h
        rcases List.mem_cons.1 h with h1 | h1
        · exact Or.inl h1
        · exact Or.inr h1

theorem sorted_insertDesc {r : MatchRecord} {l : List MatchRecord}
    (h : l.Pairwise (fun a b => b.similarity ≤ a.similarity)) :
    (insertDesc r l).Pairwise (fun a b => b.similarity ≤ a.similarity) := by
  induction l with
  | nil => simp [insertDesc]
  | cons x xs ih =>
      rcases List.pairwise_cons.1 h with ⟨hx, hxs⟩
      by_cases hc : r.similarity ≤ x.similarity
      · rw [insertDesc, if_pos hc]
        refine List.pairwise_cons.2 ⟨?_, ih hxs⟩
        intro b hb
        rcases mem_insertDesc hb with rfl | hb2
        · exact hc
        · exact hx b hb2
      · rw [insertDesc, if_neg hc]
        refine List.pairwise_cons.2 ⟨?_, h⟩
        intro b hb
        rcases List.mem_cons.1 hb with rfl | hb2
        · exact le_of_lt (lt_of_not_le hc)
        · exact le_trans (hx b hb2) (le_of_lt (lt_of_not_le hc))

theorem sorted_sortBySim (l : List MatchRecord) :
    (sortBySim l).Pairwise (fun a b => b.similarity ≤ a.similarity) := by
  induction l with
  | nil => simp [sortBySim]
  | cons x xs ih =>
      rw [sortBySim]
      exact sorted_insertDesc ih

theorem filterMap_simOf_map_ok (l : List MatchRecord) :
    (l.map QRecord.ok).filterMap QRecord.simOf = l.map (fun m => m.similarity) := by
  induction l with
  | nil => rfl
  | cons x xs ih => simp [QRecord.simOf, ih]

/-- Every single-term result list satisfies the length and sortedness
invariant, whichever matcher is plugged in. -/
theorem query_invariant (f : MatchFn) (t : String) :
    resultInvariant (query_quickumls f t) := by
  unfold query_quickumls resultInvariant
  cases hf : f t arg_best_match arg_ignore_syn with
  | error e => simp [QRecord.simOf]
  | ok groups =>
      constructor
      · calc (((sortBySim (groups.flatten.map normalize_concept)).take 3).map
              QRecord.ok).length
            = ((sortBySim (groups.flatten.map normalize_concept)).take 3).length :=
              List.length_map _ _
          _ ≤ 3 := List.length_take_le _ _
      · rw [filterMap_simOf_map_ok, List.pairwise_map]
        exact List.Pairwise.sublist (List.take_sublist _ _) (sorted_sortBySim _)

/-! Lemmas about the insertion-ordered batch mapping. -/

theorem upsert_mem {m : List (String × List QRecord)} {k : String}
    {v : List QRecord} {p : String × List QRecord}
    (hp : p ∈ upsert m k v) : p ∈ m ∨ p = (k, v) := by
  by_cases h : ∃ q ∈ m, q.1 = k
  · rw [upsert, if_pos h] at hp
    rcases List.mem_map.1 hp with ⟨q, hq, hq2⟩
    by_cases e : q.1 = k
    · right
      rw [← hq2, if_pos e]
    · left
      rw [← hq2, if_neg e]
      exact hq
  · rw [upsert, if_neg h] at hp
    rcases List.mem_append.1 hp with h1 | h1
    · exact Or.inl h1
    · exact Or.inr (by simpa using h1)

theorem upsert_self_mem (m : List (String × List QRecord)) (k : String)
    (v : List QRecord) : (k, v) ∈ upsert m k v := by
  by_cases h : ∃ q ∈ m, q.1 = k
  · rw [upsert, if_pos h]
    rcases h with ⟨q, hq, hqk⟩
    exact List.mem_map.2 ⟨q, hq, by rw [if_pos hqk]⟩
  · rw [upsert, if_neg h]
    exact List.mem_append.2 (Or.inr (by simp))

theorem keyIn_upsert_mono {k : String} {m : List (String × List QRecord)}
    (h : ∃ p ∈ m, p.1 = k) (k' : String) (v : List QRecord) :
    ∃ p ∈ upsert m k' v, p.1 = k := by
  rcases h with ⟨q, hq, hqk⟩
  by_cases e : q.1 = k'
  · exact ⟨(k', v), upsert_self_mem m k' v, by rw [← e, hqk]⟩
  · by_cases hex : ∃ p ∈ m, p.1 = k'
    · rw [upsert, if_pos hex]
      exact ⟨q, List.mem_map.2 ⟨q, hq, by rw [if_neg e]⟩, hqk⟩
    · rw [upsert, if_neg hex]
      exact ⟨q, List.mem_append.2 (Or.inl hq), hqk⟩

theorem goodMap_upsert {g : String → List QRecord}
    {m : List (String × List QRecord)} (hm : ∀ p ∈ m, p.2 = g p.1) (k : String) :
    ∀ p ∈ upsert m k (g k), p.2 = g p.1 := by
  intro p hp
  rcases upsert_mem hp with h | rfl
  · exact hm p h
  · rfl

theorem batch_aux_values (f : MatchFn) (ts : List String) :
    ∀ acc, (∀ p ∈ acc, p.2 = query_quickumls f p.1) →
      ∀ p ∈ ts.foldl (fun a t => upsert a t (query_quickumls f t)) acc,
        p.2 = query_quickumls f p.1 := by
  induction ts with
  | nil =>
      intro acc h
      simpa using h
  | cons t ts ih =>
      intro acc h
      rw [List.foldl_cons]
      exact ih _ (goodMap_upsert h t)

theorem batch_aux_keys (f : MatchFn) (ts : List String) :
    ∀ acc t, ((∃ p ∈ acc, p.1 = t) ∨ t ∈ ts) →
      ∃ p ∈ ts.foldl (fun a t => upsert a t (query_quickumls f t)) acc, p.1 = t := by
  induction ts with
  | nil =>
      intro acc t h
      rcases h with h | h
      · simpa using h
      · exact absurd h (List.not_mem_nil t)
  | cons u ts ih =>
      intro acc t h
      rw [List.foldl_cons]
      apply ih
      rcases h with h | h
      · exact Or.inl (keyIn_upsert_mono h u _)
      · rcases List.mem_cons.1 h with rfl | h2
        · exact Or.inl ⟨(t, query_quickumls f t), upsert_self_mem _ _ _, rfl⟩
        · exact Or.inr h2

/-- Every value stored in the batch mapping is the single-term result of
its own key. -/
theorem batch_values (f : MatchFn) (terms : List String) :
    ∀ p ∈ batch_query_quickumls f terms, p.2 = query_quickumls f p.1 := by
  unfold batch_query_quickumls
  exact batch_aux_values f terms [] (by simp)

/-- Every input term ends up as a key of the batch mapping. -/
theorem batch_keys (f : MatchFn) (terms : List String) (t : String)
    (h : t ∈ terms) : ∃ p ∈ batch_query_quickumls f terms, p.1 = t := by
  unfold batch_query_quickumls
  exact batch_aux_keys f terms [] t (Or.inr h)

/-! Claim theorems. -/

/-- C1 as stated is false on the code: the call site at line 43 passes
ignore_syntax=False, so the ignore-syntax option is not enabled.  A
matcher that raises exactly when ignore_syntax is False turns the lookup
into an error list, exhibiting the value that was passed. -/
theorem c1_ignore_syn_counterexample :
    arg_ignore_syn = false ∧
    query_quickumls fSyn "w" = [QRecord.err "QuickUMLS query failed: syn"] :=
  ⟨rfl, rfl⟩

/-- C1 amended: for every input term, the single-term lookup invokes the
matcher requesting best-match-per-span (best_match=True) with the
ignore-syntax option disabled (ignore_syntax=False), and the result
depends only on the matcher's answer at exactly these arguments. -/
theorem c1_match_call_args :
    arg_best_match = true ∧ arg_ignore_syn = false ∧
    ∀ (f g : MatchFn) (t : String),
      f t arg_best_match arg_ignore_syn = g t arg_best_match arg_ignore_syn →
      query_quickumls f t = query_quickumls g t := by
  refine ⟨rfl, rfl, ?_⟩
  intro f g t h
  unfold query_quickumls
  rw [h]

theorem c1_match_call_args_witness :
    query_quickumls fSyn "w" =
      query_quickumls (fun _ _ _ => Except.error "syn") "w" :=
  c1_match_call_args.2.2 fSyn (fun _ _ _ => Except.error "syn") "w" rfl

/-- C2: every single-term result list has at most three entries with the
similarity fields in non-increasing order, and the same holds of every
per-term list stored in a batch result mapping. -/
theorem c2_sorted_truncated (f : MatchFn) (t : String) (terms : List String) :
    resultInvariant (query_quickumls f t) ∧
    ∀ p ∈ batch_query_quickumls f terms, resultInvariant p.2 := by
  refine ⟨query_invariant f t, ?_⟩
  intro p hp
  rw [batch_values f terms p hp]
  exact query_invariant f p.1

theorem c2_sorted_truncated_witness :
    resultInvariant (query_quickumls fErr "fever") :=
  (c2_sorted_truncated fErr "fever" []).1

/-- C3: when the preferred field is numeric, the record's preferred_name
is the candidate's term field, or the stringified number when the term
field is absent; when the preferred field is not numeric, the
preferred_name is its stringification. -/
theorem c3_preferred_name (c : Concept) (p : PyVal) (hp : c.preferred = some p) :
    (p.isNumeric = true → ∀ t, c.term = some t →
        (normalize_concept c).preferred_name = t) ∧
    (p.isNumeric = true → c.term = Option.none →
        (normalize_concept c).preferred_name = PyVal.str (pyStr p)) ∧
    (p.isNumeric = false →
        (normalize_concept c).preferred_name = PyVal.str (pyStr p)) := by
  refine ⟨?_, ?_, ?_⟩
  · intro hn t ht
    simp [normalize_concept, hp, hn, ht]
  · intro hn ht
    simp [normalize_concept, hp, hn, ht]
  · intro hn
    simp [normalize_concept, hp, hn]

theorem c3_preferred_name_witness :
    (normalize_concept ⟨Option.none, some (PyVal.int 5),
        some (PyVal.str "fever"), Option.none, Option.none⟩).preferred_name =
      PyVal.str "fever" :=
  (c3_preferred_name _ (PyVal.int 5) rfl).1 rfl (PyVal.str "fever") rfl

/-- C4: whenever the fixed index path does not exist, the wrapper prints
exactly one single-line JSON object with an error key and exits with
code 1, whatever the argument vector (in particular under every valid
input mode), and nothing else reaches standard output. -/
theorem c4_missing_index (env : Env) (args : Args)
    (h : env.index_exists = false) :
    runMain env args =
      ([OutItem.jsonErrLine ("QuickUMLS index not found at " ++ index_path)],
       Outcome.exited 1) := by
  unfold runMain init_check
  rw [h]
  simp

theorem c4_missing_index_witness :
    runMain envMissing ⟨some "fever", Option.none, Option.none, OutputFmt.json⟩ =
      ([OutItem.jsonErrLine ("QuickUMLS index not found at " ++ index_path)],
       Outcome.exited 1) :=
  c4_missing_index envMissing
    ⟨some "fever", Option.none, Option.none, OutputFmt.json⟩ rfl

/-- C5: a matcher exception on one term is caught and becomes the
single-element error list of that term, the process does not terminate,
and every term of a batch still receives its own entry in the batch
mapping. -/
theorem c5_error_caught (f : MatchFn) (terms : List String) (t e : String)
    (hf : f t arg_best_match arg_ignore_syn = Except.error e) :
    query_quickumls f t = [QRecord.err ("QuickUMLS query failed: " ++ e)] ∧
    ∀ u ∈ terms, (u, query_quickumls f u) ∈ batch_query_quickumls f terms := by
  constructor
  · unfold query_quickumls
    rw [hf]
  · intro u hu
    rcases batch_keys f terms u hu with ⟨p, hp, hpk⟩
    have hv := batch_values f terms p hp
    have hpe : p = (u, query_quickumls f u) := by
      rcases p with ⟨a, b⟩
      simp only at hpk hv
      rw [hpk] at hv ⊢
      rw [hv]
    rw [← hpe]
    exact hp

theorem c5_error_caught_witness :
    query_quickumls fErr "a" = [QRecord.err "QuickUMLS query failed: boom"] ∧
    ("a", query_quickumls fErr "a") ∈ batch_query_quickumls fErr ["a", "b"] :=
  ⟨(c5_error_caught fErr ["a", "b"] "a" "boom" rfl).1,
   (c5_error_caught fErr ["a", "b"] "a" "boom" rfl).2 "a" (by simp)⟩

/-- C6: when the matcher returns zero candidate concepts for a term, the
single-term lookup returns the empty list rather than an error record. -/
theorem c6_zero_candidates (f : MatchFn) (t : String)
    (gs : List (List Concept))
    (h1 : f t arg_best_match arg_ignore_syn = Except.ok gs)
    (h2 : gs.flatten = []) :
    query_quickumls f t = [] := by
  unfold query_quickumls
  rw [h1]
  simp [h2, sortBySim]

theorem c6_zero_candidates_witness : query_quickumls fEmpty "x" = [] :=
  c6_zero_candidates fEmpty "x" [] rfl rfl

/-! Lemmas about stripping, towards C7. -/

theorem head_false_of_dropWhile_self {α : Type} {p : α → Bool} {x : α}
    {xs : List α} (h : (x :: xs).dropWhile p = x :: xs) : p x = false := by
  cases hx : p x
  · rfl
  · exfalso
    rw [List.dropWhile_cons, hx] at h
    simp only [if_pos] at h
    have hlen : (xs.dropWhile p).length ≤ xs.length :=
      (List.IsSuffix.sublist (List.dropWhile_suffix p)).length_le
    rw [h] at hlen
    simp at hlen

theorem dropWhile_of_front_fixed {α : Type} {p : α → Bool} {l r t : List α}
    (hl : l.dropWhile p = l) (hrt : r ++ t = l) : r.dropWhile p = r := by
  cases r with
  | nil => rfl
  | cons x r' =>
      rw [List.cons_append] at hrt
      rw [← hrt] at hl
      have hx := head_false_of_dropWhile_self hl
      simp [List.dropWhile_cons, hx]

theorem stripList_idem (l : List Char) : stripList (stripList l) = stripList l := by
  unfold stripList
  have hA : (l.dropWhile isPyWs).dropWhile isPyWs = l.dropWhile isPyWs :=
    List.dropWhile_idempotent isPyWs l
  rcases List.dropWhile_suffix (l := (l.dropWhile isPyWs).reverse) isPyWs with
    ⟨t, ht⟩
  have hpre :
      ((l.dropWhile isPyWs).reverse.dropWhile isPyWs).reverse ++ t.reverse =
        l.dropWhile isPyWs := by
    rw [← List.reverse_append, ht, List.reverse_reverse]
  have hR := dropWhile_of_front_fixed hA hpre
  rw [hR, List.reverse_reverse, List.dropWhile_idempotent]

theorem pyStrip_idem (s : String) : pyStrip (pyStrip s) = pyStrip s :=
  congrArg String.mk (stripList_idem s.data)

/-- C7: the batch-file term list trims each line and keeps only lines
that are non-blank after trimming; on the file content named by the
claim it is exactly fever then headache, in file order, and in general
every produced term is non-blank and already trimmed. -/
theorem c7_batch_file_terms :
    readTerms "fever\n\n headache \n" = ["fever", "headache"] ∧
    ∀ (content : String) (l : String), l ∈ readTerms content →
      l ≠ "" ∧ pyStrip l = l := by
  constructor
  · rfl
  · intro content l hl
    rcases List.mem_filterMap.1 hl with ⟨line, _, hline⟩
    by_cases h : pyStrip ⟨line⟩ = ""
    · rw [if_pos h] at hline
      cases hline
    · rw [if_neg h] at hline
      injection hline with h2
      rw [← h2]
      exact ⟨h, pyStrip_idem _⟩

theorem c7_batch_file_terms_witness :
    "fever" ∈ readTerms "fever\n\n headache \n" ∧
    "fever" ≠ "" ∧ pyStrip "fever" = "fever" :=
  ⟨by decide,
   c7_batch_file_terms.2 "fever\n\n headache \n" "fever" (by decide)⟩

/-! Lemmas about decimal rendering, towards C8. -/

theorem digitChar_isDigit {d : Nat} (h : d < 10) :
    (Nat.digitChar d).isDigit = true := by
  interval_cases d <;> decide

theorem natCharsAux_digits (fuel : Nat) :
    ∀ n c, c ∈ natCharsAux fuel n → c.isDigit = true := by
  induction fuel with
  | zero =>
      intro n c hc
      simp [natCharsAux] at hc
  | succ fuel ih =>
      intro n c hc
      rw [natCharsAux] at hc
      by_cases h : n = 0
      · rw [if_pos h] at hc
        cases hc
      · rw [if_neg h] at hc
        rcases List.mem_append.1 hc with h1 | h1
        · exact ih _ _ h1
        · rw [List.mem_singleton] at h1
          subst h1
          exact digitChar_isDigit (Nat.mod_lt _ (by decide))

theorem natStr_chars (n : Nat) :
    (natStr n).data.all (fun ch => ch == '-' || ch.isDigit) = true := by
  unfold natStr
  by_cases h : n = 0
  · rw [if_pos h]
    decide
  · rw [if_neg h]
    rw [List.all_eq_true]
    intro c hc
    have hd := natCharsAux_digits n n c hc
    simp [hd]

/-- The fixed-point rendering always consists of an optional sign and
decimal digits, then a point, then exactly three digit characters. -/
theorem format3_shape (q : ℚ) :
    ∃ pre a b c, format3 q = pre ++ "." ++ String.mk [a, b, c] ∧
      a.isDigit = true ∧ b.isDigit = true ∧ c.isDigit = true ∧
      pre.data.all (fun ch => ch == '-' || ch.isDigit) = true := by
  refine ⟨(if (⌊q * 1000 + 1 / 2⌋ : Int) < 0 then "-" else "") ++
      natStr ((⌊q * 1000 + 1 / 2⌋ : Int).natAbs / 1000),
    Nat.digitChar ((⌊q * 1000 + 1 / 2⌋ : Int).natAbs / 100 % 10),
    Nat.digitChar ((⌊q * 1000 + 1 / 2⌋ : Int).natAbs / 10 % 10),
    Nat.digitChar ((⌊q * 1000 + 1 / 2⌋ : Int).natAbs % 10),
    ?_, ?_, ?_, ?_, ?_⟩
  · rfl
  · exact digitChar_isDigit (Nat.mod_lt _ (by decide))
  · exact digitChar_isDigit (Nat.mod_lt _ (by decide))
  · exact digitChar_isDigit (Nat.mod_lt _ (by decide))
  · rw [String.data_append, List.all_append, natStr_chars, Bool.and_true]
    split <;> decide

/-- C8: in simple output mode each matched record contributes exactly
the three labelled lines CUI, Preferred, Similarity followed by one
separator line, and the similarity rendering has exactly three digit
characters after the decimal point. -/
theorem c8_simple_mode_lines (m : MatchRecord) (rs : List QRecord) :
    simpleLines (QRecord.ok m :: rs) =
      ("CUI: " ++ pyStr m.cui) ::
      ("Preferred: " ++ pyStr m.preferred_name) ::
      ("Similarity: " ++ format3 m.similarity) :: "---" :: simpleLines rs ∧
    ∃ pre a b c, format3 m.similarity = pre ++ "." ++ String.mk [a, b, c] ∧
      a.isDigit = true ∧ b.isDigit = true ∧ c.isDigit = true ∧
      pre.data.all (fun ch => ch == '-' || ch.isDigit) = true :=
  ⟨rfl, format3_shape m.similarity⟩

/-- C9: in simple output mode a record carrying the error key prints no
lines, and a single-term query whose matcher raised prints nothing at
all while the process still exits with code 0. -/
theorem c9_simple_error_silent (env : Env) (t e : String)
    (h0 : t ≠ "") (h1 : env.index_exists = true)
    (h2 : env.construct = Except.ok ())
    (h3 : env.matchFn t arg_best_match arg_ignore_syn = Except.error e) :
    runMain env ⟨some t, Option.none, Option.none, OutputFmt.simple⟩ =
      ([], Outcome.exited 0) ∧
    ∀ (msg : String) (rs : List QRecord),
      simpleLines (QRecord.err msg :: rs) = simpleLines rs := by
  constructor
  · have hinit : init_check env = Option.none := by
      unfold init_check
      rw [h1, h2]
      simp
    have hq : query_quickumls env.matchFn t =
        [QRecord.err ("QuickUMLS query failed: " ++ e)] := by
      unfold query_quickumls
      rw [h3]
    unfold runMain
    rw [hinit]
    simp [run_modes, run_modes2, run_modes3, h0, hq, simpleLines]
  · intro msg rs
    rfl

theorem c9_simple_error_silent_witness :
    runMain envOkErr ⟨some "a", Option.none, Option.none, OutputFmt.simple⟩ =
      ([], Outcome.exited 0) :=
  (c9_simple_error_silent envOkErr "a" "boom" (by decide) rfl rfl rfl).1

/-- C10: a failing open of the batch file is caught by no handler: with
a healthy initialization, the process ends by the uncaught exception and
nothing is printed, in particular no JSON object with an error key. -/
theorem c10_batch_file_uncaught (env : Env) (args : Args) (p e : String)
    (ha : args.batch_file = some p) (hp : p ≠ "")
    (h1 : env.index_exists = true) (h2 : env.construct = Except.ok ())
    (h3 : env.readFile p = Except.error e) :
    runMain env args = ([], Outcome.uncaught e) := by
  have hinit : init_check env = Option.none := by
    unfold init_check
    rw [h1, h2]
    simp
  unfold runMain
  rw [hinit]
  simp [run_modes, ha, hp, h3]

theorem c10_batch_file_uncaught_witness :
    runMain envOkErr ⟨Option.none, some "terms.txt", Option.none, OutputFmt.json⟩ =
      ([], Outcome.uncaught "nofile") :=
  c10_batch_file_uncaught envOkErr
    ⟨Option.none, some "terms.txt", Option.none, OutputFmt.json⟩ "terms.txt"
    "nofile" rfl (by decide) rfl rfl rfl

end Thera
